import Mathlib

/-!
# Verification of the mayones NES core

Shallow embedding of the C++ sources (`src/cpu.cpp`, `src/bus.cpp`,
`src/mapper.cpp`, `src/cartridge.cpp`) as executable Lean definitions.
Machine integers are modelled as `Nat` with explicit `% 2^8` / `% 2^16`
masking at the points where the C++ types truncate.  Memory (the 2 KiB
internal RAM and the cartridge view) is modelled as functions `Nat → Nat`
whose reads are masked to a byte, mirroring the `uint8_t` cells.
-/

/-! ## CPU memory bus (src/src/bus.cpp, src/include/bus.h)

`CPUMemoryBus` owns `std::array<uint8_t, 2048> ram` and a cartridge.
The constructor (bus.cpp:4-7) initializes only the `cartridge` member;
`ram` is default-initialized, i.e. its bytes are indeterminate.  The
model therefore takes the indeterminate initial contents as an explicit
parameter (`CPUMemoryBus.construct`).  The cartridge is modelled as the
read function it presents to the bus (`Cartridge::read` forwards to the
mapper; `Cartridge::write` forwards to `Mapper0::write`, a no-op). -/

structure CPUMemoryBus where
  ram : Nat → Nat
  cart : Nat → Nat

/-- The `CPUMemoryBus()` constructor (bus.cpp:4-7): it initializes the
`cartridge` member only, leaving `ram` default-initialized; `junk` stands
for the indeterminate bytes the array holds at that point. -/
def CPUMemoryBus.construct (junk : Nat → Nat) (cart : Nat → Nat) : CPUMemoryBus :=
  { ram := junk, cart := cart }

/-- `CPUMemoryBus::read` (bus.cpp:14-41).  The `uint16_t` parameter is
modelled by the `% 0x10000` mask; the returned `uint8_t` by masking each
backing cell to a byte. -/
def CPUMemoryBus.read (b : CPUMemoryBus) (address : Nat) : Nat :=
  let address := address % 0x10000
  if address ≤ 0x1FFF then b.ram (address &&& 0x07FF) % 0x100
  else if address ≤ 0x3FFF then 0        -- PPU register stub
  else if address ≤ 0x4017 then 0        -- APU and I/O register stub
  else if address ≤ 0x401F then 0        -- normally disabled test registers
  else if address ≤ 0xFFFF then b.cart address % 0x100
  else 0

/-- `CPUMemoryBus::write` (bus.cpp:43-75).  Only the RAM window stores;
the PPU window, 0x4014 DMA, APU window, test window are no-ops, and the
cartridge window forwards to `Mapper0::write`, which is empty. -/
def CPUMemoryBus.write (b : CPUMemoryBus) (address data : Nat) : CPUMemoryBus :=
  let address := address % 0x10000
  let data := data % 0x100
  if address ≤ 0x1FFF then
    { b with ram := fun i => if i = address &&& 0x07FF then data else b.ram i }
  else if address ≤ 0x3FFF then b        -- PPU register stub
  else if address = 0x4014 then b        -- DMA stub
  else if address ≤ 0x4017 then b        -- APU and I/O register stub
  else if address ≤ 0x401F then b        -- normally disabled test registers
  else b                                 -- cartridge: Mapper0::write is empty

/-! ## Mapper 0 (src/src/mapper.cpp) -/

structure Mapper0 where
  prg_rom : List Nat
  chr_rom : List Nat

/-- `Mapper0::read` (mapper.cpp:27-37).  The source indexes the vectors
with `operator[]`; in-range accesses (all that the claims exercise) are
modelled with `List.getD _ 0`.  The source has no `return` statement for
addresses in 0x2000-0x7FFF; the model returns 0 there. -/
def Mapper0.read (m : Mapper0) (address : Nat) : Nat :=
  let address := address % 0x10000
  if 0x8000 ≤ address ∧ address ≤ 0xFFFF then m.prg_rom.getD (address &&& 0x3FFF) 0
  else if address ≤ 0x1FFF then m.chr_rom.getD address 0
  else 0

/-! ## Cartridge / iNES loader (src/src/cartridge.cpp)

The constructor's observable outcomes, given the file's bytes.  The
crucial point of the embedding: on a too-small file, a bad magic tag or
a size mismatch the constructor prints a message to stdout and then
`return`s — construction completes normally and no error value or
exception reaches the caller.  On a nonzero mapper number it executes a
bare `throw;` with no active exception, which calls `std::terminate`. -/

inductive CartridgeOutcome where
  /-- `std::cout << "mailformed rom..."; return;` — the constructor
  returns normally; the caller receives a default-state object and no
  error indication. -/
  | malformed_logged_and_returned
  /-- `std::cout << "invalid header title..."; return;` — likewise a
  normal return with no error indication. -/
  | bad_magic_logged_and_returned
  /-- `std::cout << "unsupported mapper..."; throw;` — a bare rethrow
  with no active exception: `std::terminate` is called. -/
  | terminated_on_mapper
  /-- Construction reaches the end with `mapper = Mapper0(prg, chr)`. -/
  | ok (prg_rom chr_rom : List Nat)
deriving DecidableEq

/-- `Cartridge::Cartridge` (cartridge.cpp:14-85) applied to the bytes of
the ROM file.  Header fields per cartridge.h / iNES: bytes 0-3 magic
`4E 45 53 1A`, byte 4 PRG bank count, byte 5 CHR bank count, byte 6
flags6, byte 7 flags7. -/
def Cartridge.construct (file : List Nat) : CartridgeOutcome :=
  if file.length < 16 then .malformed_logged_and_returned
  else if ¬(file.getD 0 0 = 0x4E ∧ file.getD 1 0 = 0x45 ∧
            file.getD 2 0 = 0x53 ∧ file.getD 3 0 = 0x1A) then
    .bad_magic_logged_and_returned
  else
    let prg_rom_size := 16 * 1024 * file.getD 4 0
    let chr_rom_size := 8 * 1024 * file.getD 5 0
    if 16 + prg_rom_size + chr_rom_size ≠ file.length then .malformed_logged_and_returned
    else
      let mapper_number := (file.getD 6 0 % 0x100) >>> 4 |||
                           (file.getD 7 0 % 0x100) &&& 0xF0
      if mapper_number ≠ 0 then .terminated_on_mapper
      else
        .ok ((file.drop 16).take prg_rom_size)
           (((file.drop 16).drop prg_rom_size).take chr_rom_size)

/-! ## CPU data model (src/include/cpu.h, src/src/cpu.cpp) -/

inductive AddressMode where
  | NONE | ACCUMULATOR | IMPLIED | IMMEDIATE | ABSOLUTE | ZEROPAGE
  | ABSOLUTE_X | ABSOLUTE_Y | ZEROPAGE_X | ZEROPAGE_Y
  | INDIRECT | X_INDIRECT | INDIRECT_Y | RELATIVE
deriving DecidableEq

/-- The 56 instruction handlers (`void (CPU::*)()` member pointers in the
source). -/
inductive Mnemonic where
  | brk | ora | and_ | eor | asl | lsr | rol | ror | bit
  | php | plp | pha | pla
  | clc | sec | cli | sei | clv | cld | sed
  | rti | rts | jmp | adc | sbc
  | sta | stx | sty
  | inx | dex | iny | dey | inc | dec
  | txa | tya | txs | tay | tax | tsx
  | lda | ldx | ldy
  | cpx | cpy | cmp
  | bpl | bmi | bvc | bvs | bcc | bcs | bne | beq
  | jsr | nop
deriving DecidableEq

/-- One decode-table entry (`CPU::Instruction`).  A null handler pointer
(`func == nullptr`, the default-constructed entry) is `none`. -/
structure Instruction where
  mnemonic : String
  addr_mode : AddressMode
  cycles : Nat
  check_page_cross : Bool
  func : Option Mnemonic

/-- `CPU::Instruction::Instruction()` (cpu.cpp:6-13): the default entry
used for the `{}` slots of the table. -/
def Instruction.null : Instruction := ⟨"", .NONE, 0, false, none⟩

def STACK_BASE_ADDRESS : Nat := 0x0100
def NMI_VECTOR_ADDRESS : Nat := 0xFFFA
def RESET_VECTOR_ADDRESS : Nat := 0xFFFC
def IRQ_VECTOR_ADDRESS : Nat := 0xFFFE

def INSTRUCTIONS_0 : List Instruction := [
  ⟨"BRK", .IMPLIED, 7, false, some .brk⟩,   -- 0x00
  ⟨"ORA", .X_INDIRECT, 6, false, some .ora⟩,   -- 0x01
  .null,   -- 0x02
  .null,   -- 0x03
  .null,   -- 0x04
  ⟨"ORA", .ZEROPAGE, 3, false, some .ora⟩,   -- 0x05
  ⟨"ASL", .ZEROPAGE, 5, false, some .asl⟩,   -- 0x06
  .null,   -- 0x07
  ⟨"PHP", .IMPLIED, 3, false, some .php⟩,   -- 0x08
  ⟨"ORA", .IMMEDIATE, 2, false, some .ora⟩,   -- 0x09
  ⟨"ASL", .ACCUMULATOR, 2, false, some .asl⟩,   -- 0x0A
  .null,   -- 0x0B
  .null,   -- 0x0C
  ⟨"ORA", .ABSOLUTE, 4, false, some .ora⟩,   -- 0x0D
  ⟨"ASL", .ABSOLUTE, 6, false, some .asl⟩,   -- 0x0E
  .null   -- 0x0F
]

def INSTRUCTIONS_1 : List Instruction := [
  ⟨"BPL", .RELATIVE, 2, false, some .bpl⟩,   -- 0x10
  ⟨"ORA", .INDIRECT_Y, 5, true, some .ora⟩,   -- 0x11
  .null,   -- 0x12
  .null,   -- 0x13
  .null,   -- 0x14
  ⟨"ORA", .ZEROPAGE_X, 4, false, some .ora⟩,   -- 0x15
  ⟨"ASL", .ZEROPAGE_X, 6, false, some .asl⟩,   -- 0x16
  .null,   -- 0x17
  ⟨"CLC", .IMPLIED, 2, false, some .clc⟩,   -- 0x18
  ⟨"ORA", .ABSOLUTE_Y, 4, true, some .ora⟩,   -- 0x19
  .null,   -- 0x1A
  .null,   -- 0x1B
  .null,   -- 0x1C
  ⟨"ORA", .ABSOLUTE_X, 4, true, some .ora⟩,   -- 0x1D
  ⟨"ASL", .ABSOLUTE_X, 7, false, some .asl⟩,   -- 0x1E
  .null   -- 0x1F
]

def INSTRUCTIONS_2 : List Instruction := [
  ⟨"JSR", .ABSOLUTE, 6, false, some .jsr⟩,   -- 0x20
  ⟨"AND", .X_INDIRECT, 6, false, some .and_⟩,   -- 0x21
  .null,   -- 0x22
  .null,   -- 0x23
  ⟨"BIT", .ZEROPAGE, 3, false, some .bit⟩,   -- 0x24
  ⟨"AND", .ZEROPAGE, 3, false, some .and_⟩,   -- 0x25
  ⟨"ROL", .ZEROPAGE, 5, false, some .rol⟩,   -- 0x26
  .null,   -- 0x27
  ⟨"PLP", .IMPLIED, 4, false, some .plp⟩,   -- 0x28
  ⟨"AND", .IMMEDIATE, 2, false, some .and_⟩,   -- 0x29
  ⟨"ROL", .ACCUMULATOR, 2, false, some .rol⟩,   -- 0x2A
  .null,   -- 0x2B
  ⟨"BIT", .ABSOLUTE, 4, false, some .bit⟩,   -- 0x2C
  ⟨"AND", .ABSOLUTE, 4, false, some .and_⟩,   -- 0x2D
  ⟨"ROL", .ABSOLUTE, 6, false, some .rol⟩,   -- 0x2E
  .null   -- 0x2F
]

def INSTRUCTIONS_3 : List Instruction := [
  ⟨"BMI", .RELATIVE, 2, false, some .bmi⟩,   -- 0x30
  ⟨"AND", .INDIRECT_Y, 5, true, some .and_⟩,   -- 0x31
  .null,   -- 0x32
  .null,   -- 0x33
  .null,   -- 0x34
  ⟨"AND", .ZEROPAGE_X, 4, false, some .and_⟩,   -- 0x35
  ⟨"ROL", .ZEROPAGE_X, 6, false, some .rol⟩,   -- 0x36
  .null,   -- 0x37
  ⟨"SEC", .IMPLIED, 2, false, some .sec⟩,   -- 0x38
  ⟨"AND", .ABSOLUTE_Y, 4, true, some .and_⟩,   -- 0x39
  .null,   -- 0x3A
  .null,   -- 0x3B
  .null,   -- 0x3C
  ⟨"AND", .ABSOLUTE_X, 4, true, some .and_⟩,   -- 0x3D
  ⟨"ROL", .ABSOLUTE_X, 7, false, some .rol⟩,   -- 0x3E
  .null   -- 0x3F
]

def INSTRUCTIONS_4 : List Instruction := [
  ⟨"RTI", .IMPLIED, 6, false, some .rti⟩,   -- 0x40
  ⟨"EOR", .X_INDIRECT, 6, false, some .eor⟩,   -- 0x41
  .null,   -- 0x42
  .null,   -- 0x43
  .null,   -- 0x44
  ⟨"EOR", .ZEROPAGE, 3, false, some .eor⟩,   -- 0x45
  ⟨"LSR", .ZEROPAGE, 5, false, some .lsr⟩,   -- 0x46
  .null,   -- 0x47
  ⟨"PHA", .IMPLIED, 3, false, some .pha⟩,   -- 0x48
  ⟨"EOR", .IMMEDIATE, 2, false, some .eor⟩,   -- 0x49
  ⟨"LSR", .ACCUMULATOR, 2, false, some .lsr⟩,   -- 0x4A
  .null,   -- 0x4B
  ⟨"JMP", .ABSOLUTE, 3, false, some .jmp⟩,   -- 0x4C
  ⟨"EOR", .ABSOLUTE, 4, false, some .eor⟩,   -- 0x4D
  ⟨"LSR", .ABSOLUTE, 6, false, some .lsr⟩,   -- 0x4E
  .null   -- 0x4F
]

def INSTRUCTIONS_5 : List Instruction := [
  ⟨"BVC", .RELATIVE, 2, false, some .bvc⟩,   -- 0x50
  ⟨"EOR", .INDIRECT_Y, 5, true, some .eor⟩,   -- 0x51
  .null,   -- 0x52
  .null,   -- 0x53
  .null,   -- 0x54
  ⟨"EOR", .ZEROPAGE_X, 4, false, some .eor⟩,   -- 0x55
  ⟨"LSR", .ZEROPAGE_X, 6, false, some .lsr⟩,   -- 0x56
  .null,   -- 0x57
  ⟨"CLI", .IMPLIED, 2, false, some .cli⟩,   -- 0x58
  ⟨"EOR", .ABSOLUTE_Y, 4, true, some .eor⟩,   -- 0x59
  .null,   -- 0x5A
  .null,   -- 0x5B
  .null,   -- 0x5C
  ⟨"EOR", .ABSOLUTE_X, 4, true, some .eor⟩,   -- 0x5D
  ⟨"LSR", .ABSOLUTE_X, 7, false, some .lsr⟩,   -- 0x5E
  .null   -- 0x5F
]

def INSTRUCTIONS_6 : List Instruction := [
  ⟨"RTS", .IMPLIED, 6, false, some .rts⟩,   -- 0x60
  ⟨"ADC", .X_INDIRECT, 6, false, some .adc⟩,   -- 0x61
  .null,   -- 0x62
  .null,   -- 0x63
  .null,   -- 0x64
  ⟨"ADC", .ZEROPAGE, 3, false, some .adc⟩,   -- 0x65
  ⟨"ROR", .ZEROPAGE, 5, false, some .ror⟩,   -- 0x66
  .null,   -- 0x67
  ⟨"PLA", .IMPLIED, 4, false, some .pla⟩,   -- 0x68
  ⟨"ADC", .IMMEDIATE, 2, false, some .adc⟩,   -- 0x69
  ⟨"ROR", .ACCUMULATOR, 2, false, some .ror⟩,   -- 0x6A
  .null,   -- 0x6B
  ⟨"JMP", .INDIRECT, 5, false, some .jmp⟩,   -- 0x6C
  ⟨"ADC", .ABSOLUTE, 4, false, some .adc⟩,   -- 0x6D
  ⟨"ROR", .ABSOLUTE, 6, false, some .ror⟩,   -- 0x6E
  .null   -- 0x6F
]

def INSTRUCTIONS_7 : List Instruction := [
  ⟨"BVS", .RELATIVE, 2, false, some .bvs⟩,   -- 0x70
  ⟨"ADC", .INDIRECT_Y, 5, true, some .adc⟩,   -- 0x71
  .null,   -- 0x72
  .null,   -- 0x73
  .null,   -- 0x74
  ⟨"ADC", .ZEROPAGE_X, 4, false, some .adc⟩,   -- 0x75
  ⟨"ROR", .ZEROPAGE_X, 6, false, some .ror⟩,   -- 0x76
  .null,   -- 0x77
  ⟨"SEI", .IMPLIED, 2, false, some .sei⟩,   -- 0x78
  ⟨"ADC", .ABSOLUTE_Y, 4, true, some .adc⟩,   -- 0x79
  .null,   -- 0x7A
  .null,   -- 0x7B
  .null,   -- 0x7C
  ⟨"ADC", .ABSOLUTE_X, 4, true, some .adc⟩,   -- 0x7D
  ⟨"ROR", .ABSOLUTE_X, 7, false, some .ror⟩,   -- 0x7E
  .null   -- 0x7F
]

def INSTRUCTIONS_8 : List Instruction := [
  .null,   -- 0x80
  ⟨"STA", .X_INDIRECT, 6, false, some .sta⟩,   -- 0x81
  .null,   -- 0x82
  .null,   -- 0x83
  ⟨"STY", .ZEROPAGE, 3, false, some .sty⟩,   -- 0x84
  ⟨"STA", .ZEROPAGE, 3, false, some .sta⟩,   -- 0x85
  ⟨"STX", .ZEROPAGE, 3, false, some .stx⟩,   -- 0x86
  .null,   -- 0x87
  ⟨"DEY", .IMPLIED, 2, false, some .dey⟩,   -- 0x88
  .null,   -- 0x89
  ⟨"TXA", .IMPLIED, 2, false, some .txa⟩,   -- 0x8A
  .null,   -- 0x8B
  ⟨"STY", .ABSOLUTE, 4, false, some .sty⟩,   -- 0x8C
  ⟨"STA", .ABSOLUTE, 4, false, some .sta⟩,   -- 0x8D
  ⟨"STX", .ABSOLUTE, 4, false, some .stx⟩,   -- 0x8E
  .null   -- 0x8F
]

def INSTRUCTIONS_9 : List Instruction := [
  ⟨"BCC", .RELATIVE, 2, false, some .bcc⟩,   -- 0x90
  ⟨"STA", .INDIRECT_Y, 6, false, some .sta⟩,   -- 0x91
  .null,   -- 0x92
  .null,   -- 0x93
  ⟨"STY", .ZEROPAGE_X, 4, false, some .sty⟩,   -- 0x94
  ⟨"STA", .ZEROPAGE_X, 4, false, some .sta⟩,   -- 0x95
  ⟨"STX", .ZEROPAGE_Y, 4, false, some .stx⟩,   -- 0x96
  .null,   -- 0x97
  ⟨"TYA", .IMPLIED, 2, false, some .tya⟩,   -- 0x98
  ⟨"STA", .ABSOLUTE_Y, 5, false, some .sta⟩,   -- 0x99
  ⟨"TXS", .IMPLIED, 2, false, some .txs⟩,   -- 0x9A
  .null,   -- 0x9B
  .null,   -- 0x9C
  ⟨"STA", .ABSOLUTE_X, 5, false, some .sta⟩,   -- 0x9D
  .null,   -- 0x9E
  .null   -- 0x9F
]

def INSTRUCTIONS_A : List Instruction := [
  ⟨"LDY", .IMMEDIATE, 2, false, some .ldy⟩,   -- 0xA0
  ⟨"LDA", .X_INDIRECT, 6, false, some .lda⟩,   -- 0xA1
  ⟨"LDX", .IMMEDIATE, 2, false, some .ldx⟩,   -- 0xA2
  .null,   -- 0xA3
  ⟨"LDY", .ZEROPAGE, 3, false, some .ldy⟩,   -- 0xA4
  ⟨"LDA", .ZEROPAGE, 3, false, some .lda⟩,   -- 0xA5
  ⟨"LDX", .ZEROPAGE, 3, false, some .ldx⟩,   -- 0xA6
  .null,   -- 0xA7
  ⟨"TAY", .IMPLIED, 2, false, some .tay⟩,   -- 0xA8
  ⟨"LDA", .IMMEDIATE, 2, false, some .lda⟩,   -- 0xA9
  ⟨"TAX", .IMPLIED, 2, false, some .tax⟩,   -- 0xAA
  .null,   -- 0xAB
  ⟨"LDY", .ABSOLUTE, 4, false, some .ldy⟩,   -- 0xAC
  ⟨"LDA", .ABSOLUTE, 4, false, some .lda⟩,   -- 0xAD
  ⟨"LDX", .ABSOLUTE, 4, false, some .ldx⟩,   -- 0xAE
  .null   -- 0xAF
]

def INSTRUCTIONS_B : List Instruction := [
  ⟨"BCS", .RELATIVE, 2, false, some .bcs⟩,   -- 0xB0
  ⟨"LDA", .INDIRECT_Y, 5, true, some .lda⟩,   -- 0xB1
  .null,   -- 0xB2
  .null,   -- 0xB3
  ⟨"LDY", .ZEROPAGE_X, 4, false, some .ldy⟩,   -- 0xB4
  ⟨"LDA", .ZEROPAGE_X, 4, false, some .lda⟩,   -- 0xB5
  ⟨"LDX", .ZEROPAGE_Y, 4, false, some .ldx⟩,   -- 0xB6
  .null,   -- 0xB7
  ⟨"CLV", .IMPLIED, 2, false, some .clv⟩,   -- 0xB8
  ⟨"LDA", .ABSOLUTE_Y, 4, true, some .lda⟩,   -- 0xB9
  ⟨"TSX", .IMPLIED, 2, false, some .tsx⟩,   -- 0xBA
  .null,   -- 0xBB
  ⟨"LDY", .ABSOLUTE_X, 4, true, some .ldy⟩,   -- 0xBC
  ⟨"LDA", .ABSOLUTE_X, 4, true, some .lda⟩,   -- 0xBD
  ⟨"LDX", .ABSOLUTE_Y, 4, true, some .ldx⟩,   -- 0xBE
  .null   -- 0xBF
]

def INSTRUCTIONS_C : List Instruction := [
  ⟨"CPY", .IMMEDIATE, 2, false, some .cpy⟩,   -- 0xC0
  ⟨"CMP", .X_INDIRECT, 6, false, some .cmp⟩,   -- 0xC1
  .null,   -- 0xC2
  .null,   -- 0xC3
  ⟨"CPY", .ZEROPAGE, 3, false, some .cpy⟩,   -- 0xC4
  ⟨"CMP", .ZEROPAGE, 3, false, some .cmp⟩,   -- 0xC5
  ⟨"DEC", .ZEROPAGE, 5, false, some .dec⟩,   -- 0xC6
  .null,   -- 0xC7
  ⟨"INY", .IMPLIED, 2, false, some .iny⟩,   -- 0xC8
  ⟨"CMP", .IMMEDIATE, 2, false, some .cmp⟩,   -- 0xC9
  ⟨"DEX", .IMPLIED, 2, false, some .dex⟩,   -- 0xCA
  .null,   -- 0xCB
  ⟨"CPY", .ABSOLUTE, 4, false, some .cpy⟩,   -- 0xCC
  ⟨"CMP", .ABSOLUTE, 4, false, some .cmp⟩,   -- 0xCD
  ⟨"DEC", .ABSOLUTE, 6, false, some .dec⟩,   -- 0xCE
  .null   -- 0xCF
]

def INSTRUCTIONS_D : List Instruction := [
  ⟨"BNE", .RELATIVE, 2, false, some .bne⟩,   -- 0xD0
  ⟨"CMP", .INDIRECT_Y, 5, true, some .cmp⟩,   -- 0xD1
  .null,   -- 0xD2
  .null,   -- 0xD3
  .null,   -- 0xD4
  ⟨"CMP", .ZEROPAGE_X, 4, false, some .cmp⟩,   -- 0xD5
  ⟨"DEC", .ZEROPAGE_X, 6, false, some .dec⟩,   -- 0xD6
  .null,   -- 0xD7
  ⟨"CLD", .IMPLIED, 2, false, some .cld⟩,   -- 0xD8
  ⟨"CMP", .ABSOLUTE_Y, 4, true, some .cmp⟩,   -- 0xD9
  .null,   -- 0xDA
  .null,   -- 0xDB
  .null,   -- 0xDC
  ⟨"CMP", .ABSOLUTE_X, 4, true, some .cmp⟩,   -- 0xDD
  ⟨"DEC", .ABSOLUTE_X, 7, false, some .dec⟩,   -- 0xDE
  .null   -- 0xDF
]

def INSTRUCTIONS_E : List Instruction := [
  ⟨"CPX", .IMMEDIATE, 2, false, some .cpx⟩,   -- 0xE0
  ⟨"SBC", .X_INDIRECT, 6, false, some .sbc⟩,   -- 0xE1
  .null,   -- 0xE2
  .null,   -- 0xE3
  ⟨"CPX", .ZEROPAGE, 3, false, some .cpx⟩,   -- 0xE4
  ⟨"SBC", .ZEROPAGE, 3, false, some .sbc⟩,   -- 0xE5
  ⟨"INC", .ZEROPAGE, 5, false, some .inc⟩,   -- 0xE6
  .null,   -- 0xE7
  ⟨"INX", .IMPLIED, 2, false, some .inx⟩,   -- 0xE8
  ⟨"SBC", .IMMEDIATE, 2, false, some .sbc⟩,   -- 0xE9
  ⟨"NOP", .IMPLIED, 2, false, some .nop⟩,   -- 0xEA
  .null,   -- 0xEB
  ⟨"CPX", .ABSOLUTE, 4, false, some .cpx⟩,   -- 0xEC
  ⟨"SBC", .ABSOLUTE, 4, false, some .sbc⟩,   -- 0xED
  ⟨"INC", .ABSOLUTE, 6, false, some .inc⟩,   -- 0xEE
  .null   -- 0xEF
]

def INSTRUCTIONS_F : List Instruction := [
  ⟨"BEQ", .RELATIVE, 2, false, some .beq⟩,   -- 0xF0
  ⟨"SBC", .INDIRECT_Y, 5, true, some .sbc⟩,   -- 0xF1
  .null,   -- 0xF2
  .null,   -- 0xF3
  .null,   -- 0xF4
  ⟨"SBC", .ZEROPAGE_X, 4, false, some .sbc⟩,   -- 0xF5
  ⟨"INC", .ZEROPAGE_X, 6, false, some .inc⟩,   -- 0xF6
  .null,   -- 0xF7
  ⟨"SED", .IMPLIED, 2, false, some .sed⟩,   -- 0xF8
  ⟨"SBC", .ABSOLUTE_Y, 4, true, some .sbc⟩,   -- 0xF9
  .null,   -- 0xFA
  .null,   -- 0xFB
  .null,   -- 0xFC
  ⟨"SBC", .ABSOLUTE_X, 4, true, some .sbc⟩,   -- 0xFD
  ⟨"INC", .ABSOLUTE_X, 7, false, some .inc⟩   -- 0xFE
]

/-- `CPU::INSTRUCTIONS` (cpu.cpp:33-289), transcribed slot by slot in
sixteen-row blocks.  The source declares the array as `Instruction[0xFF]`,
i.e. with 255 slots covering opcodes 0x00-0xFE only. -/
def INSTRUCTIONS : List Instruction :=
  INSTRUCTIONS_0 ++ INSTRUCTIONS_1 ++ INSTRUCTIONS_2 ++ INSTRUCTIONS_3 ++ INSTRUCTIONS_4 ++ INSTRUCTIONS_5 ++ INSTRUCTIONS_6 ++ INSTRUCTIONS_7 ++ INSTRUCTIONS_8 ++ INSTRUCTIONS_9 ++ INSTRUCTIONS_A ++ INSTRUCTIONS_B ++ INSTRUCTIONS_C ++ INSTRUCTIONS_D ++ INSTRUCTIONS_E ++ INSTRUCTIONS_F

/-! ## CPU state (src/include/cpu.h:52-65)

All register fields are `Nat`s holding byte (`a x y p sp`) or word (`pc`)
values; every assignment masks exactly where the C++ integer types
truncate.  `curr_cycle` is the per-instruction tally `step()` returns;
`total_cycles` the running total. -/

structure CPU where
  a : Nat
  x : Nat
  y : Nat
  p : Nat
  sp : Nat
  pc : Nat
  addr_mode : AddressMode
  operand_addr : Nat
  curr_cycle : Nat
  total_cycles : Nat
  page_crossed : Bool
  bus : CPUMemoryBus

/-- `CPU::CPU(CPUMemoryBus&)` (cpu.cpp:292-307). -/
def CPU.construct (bus : CPUMemoryBus) : CPU :=
  { a := 0, x := 0, y := 0, p := 0, sp := 0, pc := 0,
    addr_mode := .NONE, operand_addr := 0,
    curr_cycle := 0, total_cycles := 0, page_crossed := false, bus := bus }

/-- `CPU::reset` (cpu.cpp:309-318). -/
def CPU.reset (s : CPU) : CPU :=
  { s with
    a := 0x00, x := 0x00, y := 0x00, sp := 0xFD,
    p := 0x04 ||| 0x20,   -- Flag::INTERRUPT | Flag::UNUSED
    pc := s.bus.read RESET_VECTOR_ADDRESS |||
          s.bus.read (RESET_VECTOR_ADDRESS + 1) <<< 8,
    total_cycles := s.total_cycles + 7 }

/-- `CPU::push_stack` (cpu.cpp:383-386): write at `STACK_BASE | sp`, then
post-decrement `sp` with `uint8_t` wrap-around. -/
def CPU.push_stack (s : CPU) (data : Nat) : CPU :=
  { s with bus := s.bus.write (STACK_BASE_ADDRESS ||| s.sp) data,
           sp := (s.sp + 0xFF) % 0x100 }

/-- `CPU::pop_stack` (cpu.cpp:388-391): pre-increment `sp` with `uint8_t`
wrap-around, then read at `STACK_BASE | sp`.  Returns the new state and
the byte read. -/
def CPU.pop_stack (s : CPU) : CPU × Nat :=
  let sp := (s.sp + 1) % 0x100
  ({ s with sp := sp }, s.bus.read (STACK_BASE_ADDRESS ||| sp))

/-- `CPU::set_flag` (cpu.cpp:393-403).  `p &= ~flag` on `uint8_t` is
`p &&& (0xFF ^^^ flag)`. -/
def CPU.set_flag (s : CPU) (flag : Nat) (value : Nat) : CPU :=
  if value ≠ 0 then { s with p := s.p ||| flag }
  else { s with p := s.p &&& (0xFF ^^^ flag) }

/-- `CPU::set_nz_flags` (cpu.cpp:405-409): ZERO (bit 1) from `data == 0`,
then NEGATIVE (bit 7) from `(data >> 7) & 1`. -/
def CPU.set_nz_flags (s : CPU) (data : Nat) : CPU :=
  let s := s.set_flag 0x02 (if data = 0 then 1 else 0)
  s.set_flag 0x80 ((data >>> 7) &&& 1)

/-- `CPU::is_page_crossed` (cpu.cpp:411-414). -/
def is_page_crossed (address1 address2 : Nat) : Bool :=
  (address1 &&& 0xFF00) != (address2 &&& 0xFF00)

/-- `CPU::read_wrapped_page` (cpu.cpp:416-428): 16-bit little-endian
pointer fetch with the 6502 page-wrap bug — if `address + 1` leaves the
page, the high byte comes from `address & 0xFF00`. -/
def CPU.read_wrapped_page (s : CPU) (address : Nat) : Nat :=
  let address := address % 0x10000
  let low := s.bus.read address
  if is_page_crossed address ((address + 1) % 0x10000) then
    low ||| s.bus.read (address &&& 0xFF00) <<< 8
  else
    low ||| s.bus.read ((address + 1) % 0x10000) <<< 8

/-- `CPU::resolve_immediate` (cpu.cpp:430-433): `return pc++`. -/
def CPU.resolve_immediate (s : CPU) : CPU :=
  { s with operand_addr := s.pc, pc := (s.pc + 1) % 0x10000 }

/-- `CPU::resolve_zeropage` (cpu.cpp:435-438). -/
def CPU.resolve_zeropage (s : CPU) (offset : Nat) : CPU :=
  { s with operand_addr := (s.bus.read s.pc + offset) &&& 0xFF,
           pc := (s.pc + 1) % 0x10000 }

/-- `CPU::resolve_absolute` (cpu.cpp:440-447). -/
def CPU.resolve_absolute (s : CPU) (offset : Nat) : CPU :=
  let base_addr := s.bus.read s.pc ||| s.bus.read ((s.pc + 1) % 0x10000) <<< 8
  let effective_addr := (base_addr + offset) &&& 0xFFFF
  { s with pc := (s.pc + 2) % 0x10000,
           operand_addr := effective_addr,
           page_crossed := is_page_crossed base_addr effective_addr }

/-- `CPU::resolve_indirect` (cpu.cpp:449-454). -/
def CPU.resolve_indirect (s : CPU) : CPU :=
  let addr := s.bus.read s.pc ||| s.bus.read ((s.pc + 1) % 0x10000) <<< 8
  { s with pc := (s.pc + 2) % 0x10000,
           operand_addr := s.read_wrapped_page addr }

/-- `CPU::resolve_preindex_indirect` (cpu.cpp:456-460). -/
def CPU.resolve_preindex_indirect (s : CPU) : CPU :=
  let zeropage_addr := (s.bus.read s.pc + s.x) &&& 0xFF
  { s with pc := (s.pc + 1) % 0x10000,
           operand_addr := s.read_wrapped_page zeropage_addr }

/-- `CPU::resolve_postindex_indirect` (cpu.cpp:462-468). -/
def CPU.resolve_postindex_indirect (s : CPU) : CPU :=
  let base_addr := s.read_wrapped_page (s.bus.read s.pc)
  let effective_addr := (base_addr + s.y) &&& 0xFFFF
  { s with pc := (s.pc + 1) % 0x10000,
           operand_addr := effective_addr,
           page_crossed := is_page_crossed base_addr effective_addr }

/-- `CPU::resolve_relative` (cpu.cpp:470-473): same as immediate. -/
def CPU.resolve_relative (s : CPU) : CPU :=
  s.resolve_immediate

/-- `CPU::get_operand` (cpu.cpp:475-478). -/
def CPU.get_operand (s : CPU) : Nat :=
  if s.addr_mode = .ACCUMULATOR then s.a else s.bus.read s.operand_addr

/-- `CPU::store` (cpu.cpp:480-490). -/
def CPU.store (s : CPU) (data : Nat) : CPU :=
  if s.addr_mode = .ACCUMULATOR then { s with a := data }
  else { s with bus := s.bus.write s.operand_addr data }

/-! ## Instruction handlers (cpu.cpp:492-850) -/

/-- `CPU::brk` (cpu.cpp:492-500). -/
def CPU.brk (s : CPU) : CPU :=
  let return_addr := (s.pc + 1) % 0x10000   -- ++pc
  let s := { s with pc := return_addr }
  let s := s.push_stack (return_addr >>> 8)
  let s := s.push_stack (return_addr &&& 0xFF)
  let s := s.push_stack (s.p ||| 0x10)      -- p | Flag::BREAK
  let s := { s with p := s.p ||| 0x04 }     -- p |= Flag::INTERRUPT
  { s with pc := s.bus.read IRQ_VECTOR_ADDRESS |||
                 s.bus.read (IRQ_VECTOR_ADDRESS + 1) <<< 8 }

/-- `CPU::ora` (cpu.cpp:502-506). -/
def CPU.ora (s : CPU) : CPU :=
  let s := { s with a := s.a ||| s.get_operand }
  s.set_nz_flags s.a

/-- `CPU::and_` (cpu.cpp:508-512). -/
def CPU.and_ (s : CPU) : CPU :=
  let s := { s with a := s.a &&& s.get_operand }
  s.set_nz_flags s.a

/-- `CPU::eor` (cpu.cpp:514-518). -/
def CPU.eor (s : CPU) : CPU :=
  let s := { s with a := s.a ^^^ s.get_operand }
  s.set_nz_flags s.a

/-- `CPU::asl` (cpu.cpp:520-527). -/
def CPU.asl (s : CPU) : CPU :=
  let operand := s.get_operand
  let result := operand <<< 1 &&& 0xFF
  let s := s.set_flag 0x01 (operand >>> 7)
  let s := s.set_nz_flags result
  s.store result

/-- `CPU::lsr` (cpu.cpp:529-536). -/
def CPU.lsr (s : CPU) : CPU :=
  let operand := s.get_operand
  let result := operand >>> 1
  let s := s.set_flag 0x01 (operand &&& 1)
  let s := s.set_nz_flags result
  s.store result

/-- `CPU::rol` (cpu.cpp:538-545). -/
def CPU.rol (s : CPU) : CPU :=
  let operand := s.get_operand
  let result := (operand <<< 1 ||| s.p &&& 0x01) &&& 0xFF
  let s := s.set_flag 0x01 (operand >>> 7)
  let s := s.set_nz_flags result
  s.store result

/-- `CPU::ror` (cpu.cpp:547-554). -/
def CPU.ror (s : CPU) : CPU :=
  let operand := s.get_operand
  let result := (operand >>> 1 ||| (s.p &&& 0x01) <<< 7) &&& 0xFF
  let s := s.set_flag 0x01 (operand &&& 1)
  let s := s.set_nz_flags result
  s.store result

/-- `CPU::bit` (cpu.cpp:556-562). -/
def CPU.bit (s : CPU) : CPU :=
  let operand := s.get_operand
  let s := s.set_flag 0x02 (if s.a &&& operand = 0 then 1 else 0)
  let s := s.set_flag 0x40 ((operand >>> 6) &&& 1)
  s.set_flag 0x80 (operand >>> 7)

/-- `CPU::php` (cpu.cpp:564-567): pushes `p | Flag::BREAK`. -/
def CPU.php (s : CPU) : CPU :=
  s.push_stack (s.p ||| 0x10)

/-- `CPU::plp` (cpu.cpp:569-572): `p = pop_stack() & ~BREAK | UNUSED`. -/
def CPU.plp (s : CPU) : CPU :=
  let (s, v) := s.pop_stack
  { s with p := (v &&& (0xFF ^^^ 0x10)) ||| 0x20 }

/-- `CPU::pha` (cpu.cpp:574-577). -/
def CPU.pha (s : CPU) : CPU :=
  s.push_stack s.a

/-- `CPU::pla` (cpu.cpp:579-583). -/
def CPU.pla (s : CPU) : CPU :=
  let (s, v) := s.pop_stack
  let s := { s with a := v }
  s.set_nz_flags s.a

/-- `CPU::clc` (cpu.cpp:585-588): `p &= ~Flag::CARRY`. -/
def CPU.clc (s : CPU) : CPU := { s with p := s.p &&& (0xFF ^^^ 0x01) }

/-- `CPU::sec` (cpu.cpp:590-593). -/
def CPU.sec (s : CPU) : CPU := { s with p := s.p ||| 0x01 }

/-- `CPU::cli` (cpu.cpp:595-598). -/
def CPU.cli (s : CPU) : CPU := { s with p := s.p &&& (0xFF ^^^ 0x04) }

/-- `CPU::sei` (cpu.cpp:600-603). -/
def CPU.sei (s : CPU) : CPU := { s with p := s.p ||| 0x04 }

/-- `CPU::clv` (cpu.cpp:605-608). -/
def CPU.clv (s : CPU) : CPU := { s with p := s.p &&& (0xFF ^^^ 0x40) }

/-- `CPU::cld` (cpu.cpp:610-613). -/
def CPU.cld (s : CPU) : CPU := { s with p := s.p &&& (0xFF ^^^ 0x08) }

/-- `CPU::sed` (cpu.cpp:615-618). -/
def CPU.sed (s : CPU) : CPU := { s with p := s.p ||| 0x08 }

/-- `CPU::rti` (cpu.cpp:620-624): `p = pop_stack() | Flag::UNUSED;` then
`pc = pop_stack() | pop_stack() << 8` (modelled left to right: low byte
first, as the 6502 does).  Note the source does NOT clear the B bit of
the popped status, unlike `plp`. -/
def CPU.rti (s : CPU) : CPU :=
  let (s, v) := s.pop_stack
  let s := { s with p := v ||| 0x20 }
  let (s, lo) := s.pop_stack
  let (s, hi) := s.pop_stack
  { s with pc := lo ||| hi <<< 8 }

/-- `CPU::rts` (cpu.cpp:626-629). -/
def CPU.rts (s : CPU) : CPU :=
  let (s, lo) := s.pop_stack
  let (s, hi) := s.pop_stack
  { s with pc := ((lo ||| hi <<< 8) + 1) % 0x10000 }

/-- `CPU::jmp` (cpu.cpp:631-634). -/
def CPU.jmp (s : CPU) : CPU := { s with pc := s.operand_addr }

/-- `CPU::adc_` (cpu.cpp:636-644): the shared ADC core.  `result` is the
16-bit intermediate sum; the CARRY update precedes the OVERFLOW update,
and both read the pre-update accumulator. -/
def CPU.adc_ (s : CPU) (operand : Nat) : CPU :=
  let result := s.a + operand + (s.p &&& 0x01)
  let s := s.set_flag 0x01 (if result > 0xFF then 1 else 0)
  let s := s.set_flag 0x40
    (if ((s.a ^^^ result) &&& (operand ^^^ result) &&& 0x80) >>> 7 ≠ 0 then 1 else 0)
  let result := result &&& 0xFF
  let s := s.set_nz_flags result
  { s with a := result }

/-- `CPU::adc` (cpu.cpp:646-649). -/
def CPU.adc (s : CPU) : CPU := s.adc_ s.get_operand

/-- `CPU::sbc` (cpu.cpp:651-654): `adc_(get_operand() ^ 0xFF)`. -/
def CPU.sbc (s : CPU) : CPU := s.adc_ (s.get_operand ^^^ 0xFF)

/-- `CPU::sta` (cpu.cpp:656-659). -/
def CPU.sta (s : CPU) : CPU := s.store s.a

/-- `CPU::stx` (cpu.cpp:661-664). -/
def CPU.stx (s : CPU) : CPU := s.store s.x

/-- `CPU::sty` (cpu.cpp:666-669). -/
def CPU.sty (s : CPU) : CPU := s.store s.y

/-- `CPU::inx` (cpu.cpp:671-675). -/
def CPU.inx (s : CPU) : CPU :=
  let s := { s with x := (s.x + 1) &&& 0xFF }
  s.set_nz_flags s.x

/-- `CPU::dex` (cpu.cpp:677-681): `(x - 1) & 0xFF` in `int` arithmetic,
i.e. `(x + 0xFF) & 0xFF` for a byte-valued `x`. -/
def CPU.dex (s : CPU) : CPU :=
  let s := { s with x := (s.x + 0xFF) &&& 0xFF }
  s.set_nz_flags s.x

/-- `CPU::iny` (cpu.cpp:683-687). -/
def CPU.iny (s : CPU) : CPU :=
  let s := { s with y := (s.y + 1) &&& 0xFF }
  s.set_nz_flags s.y

/-- `CPU::dey` (cpu.cpp:689-693). -/
def CPU.dey (s : CPU) : CPU :=
  let s := { s with y := (s.y + 0xFF) &&& 0xFF }
  s.set_nz_flags s.y

/-- `CPU::inc` (cpu.cpp:695-700). -/
def CPU.inc (s : CPU) : CPU :=
  let result := (s.get_operand + 1) &&& 0xFF
  let s := s.set_nz_flags result
  s.store result

/-- `CPU::dec` (cpu.cpp:702-707). -/
def CPU.dec (s : CPU) : CPU :=
  let result := (s.get_operand + 0xFF) &&& 0xFF
  let s := s.set_nz_flags result
  s.store result

/-- `CPU::txa` (cpu.cpp:709-713). -/
def CPU.txa (s : CPU) : CPU :=
  let s := { s with a := s.x }
  s.set_nz_flags s.a

/-- `CPU::tya` (cpu.cpp:715-719). -/
def CPU.tya (s : CPU) : CPU :=
  let s := { s with a := s.y }
  s.set_nz_flags s.a

/-- `CPU::txs` (cpu.cpp:721-724): no flag update. -/
def CPU.txs (s : CPU) : CPU := { s with sp := s.x }

/-- `CPU::tay` (cpu.cpp:726-730). -/
def CPU.tay (s : CPU) : CPU :=
  let s := { s with y := s.a }
  s.set_nz_flags s.y

/-- `CPU::tax` (cpu.cpp:732-736). -/
def CPU.tax (s : CPU) : CPU :=
  let s := { s with x := s.a }
  s.set_nz_flags s.x

/-- `CPU::tsx` (cpu.cpp:738-742). -/
def CPU.tsx (s : CPU) : CPU :=
  let s := { s with x := s.sp }
  s.set_nz_flags s.x

/-- `CPU::lda` (cpu.cpp:744-748). -/
def CPU.lda (s : CPU) : CPU :=
  let s := { s with a := s.get_operand }
  s.set_nz_flags s.a

/-- `CPU::ldx` (cpu.cpp:750-754). -/
def CPU.ldx (s : CPU) : CPU :=
  let s := { s with x := s.get_operand }
  s.set_nz_flags s.x

/-- `CPU::ldy` (cpu.cpp:756-760). -/
def CPU.ldy (s : CPU) : CPU :=
  let s := { s with y := s.get_operand }
  s.set_nz_flags s.y

/-- `CPU::cpx` (cpu.cpp:762-768).  `uint8_t result = x - operand` is the
difference modulo 256. -/
def CPU.cpx (s : CPU) : CPU :=
  let operand := s.get_operand
  let result := (s.x + 0x100 - operand) % 0x100
  let s := s.set_flag 0x01 (if s.x ≥ operand then 1 else 0)
  s.set_nz_flags result

/-- `CPU::cpy` (cpu.cpp:770-776). -/
def CPU.cpy (s : CPU) : CPU :=
  let operand := s.get_operand
  let result := (s.y + 0x100 - operand) % 0x100
  let s := s.set_flag 0x01 (if s.y ≥ operand then 1 else 0)
  s.set_nz_flags result

/-- `CPU::cmp` (cpu.cpp:778-784). -/
def CPU.cmp (s : CPU) : CPU :=
  let operand := s.get_operand
  let result := (s.a + 0x100 - operand) % 0x100
  let s := s.set_flag 0x01 (if s.a ≥ operand then 1 else 0)
  s.set_nz_flags result

/-- `CPU::branch` (cpu.cpp:786-798).  When the condition fails the state
is returned untouched.  When it holds: `++curr_cycle`, the operand byte
is reinterpreted as a signed offset, `pc + offset` wraps to 16 bits, and
`page_crossed` is set (it is NOT consumed here; `execute` only consults
it when the decode entry's `check_page_cross` is true). -/
def CPU.branch (s : CPU) (condition : Bool) : CPU :=
  if !condition then s
  else
    let s := { s with curr_cycle := s.curr_cycle + 1 }
    let operand := s.get_operand
    let addr :=
      if operand &&& 0x80 = 0x80 then (s.pc + 0x10000 - (0x100 - operand)) % 0x10000
      else (s.pc + operand) % 0x10000
    { s with page_crossed := is_page_crossed s.pc addr, pc := addr }

/-- `CPU::bpl` (cpu.cpp:800-803). -/
def CPU.bpl (s : CPU) : CPU := s.branch (s.p &&& 0x80 = 0)

/-- `CPU::bmi` (cpu.cpp:805-808). -/
def CPU.bmi (s : CPU) : CPU := s.branch (s.p &&& 0x80 ≠ 0)

/-- `CPU::bvc` (cpu.cpp:810-813). -/
def CPU.bvc (s : CPU) : CPU := s.branch (s.p &&& 0x40 = 0)

/-- `CPU::bvs` (cpu.cpp:815-818). -/
def CPU.bvs (s : CPU) : CPU := s.branch (s.p &&& 0x40 ≠ 0)

/-- `CPU::bcc` (cpu.cpp:820-823). -/
def CPU.bcc (s : CPU) : CPU := s.branch (s.p &&& 0x01 = 0)

/-- `CPU::bcs` (cpu.cpp:825-828). -/
def CPU.bcs (s : CPU) : CPU := s.branch (s.p &&& 0x01 ≠ 0)

/-- `CPU::bne` (cpu.cpp:830-833). -/
def CPU.bne (s : CPU) : CPU := s.branch (s.p &&& 0x02 = 0)

/-- `CPU::beq` (cpu.cpp:835-838). -/
def CPU.beq (s : CPU) : CPU := s.branch (s.p &&& 0x02 ≠ 0)

/-- `CPU::jsr` (cpu.cpp:840-846): pushes `pc - 1` (16-bit wrap) high byte
then low byte, then jumps. -/
def CPU.jsr (s : CPU) : CPU :=
  let return_addr := (s.pc + 0xFFFF) % 0x10000
  let s := s.push_stack (return_addr >>> 8)
  let s := s.push_stack (return_addr &&& 0xFF)
  { s with pc := s.operand_addr }

/-- `CPU::nop` (cpu.cpp:848-850). -/
def CPU.nop (s : CPU) : CPU := s

/-- Dispatch through the member-function pointer stored in a decode
entry (`(this->*instruction.func)()` at cpu.cpp:373). -/
def CPU.exec_fn : Mnemonic → CPU → CPU
  | .brk => CPU.brk | .ora => CPU.ora | .and_ => CPU.and_ | .eor => CPU.eor
  | .asl => CPU.asl | .lsr => CPU.lsr | .rol => CPU.rol | .ror => CPU.ror
  | .bit => CPU.bit | .php => CPU.php | .plp => CPU.plp | .pha => CPU.pha
  | .pla => CPU.pla | .clc => CPU.clc | .sec => CPU.sec | .cli => CPU.cli
  | .sei => CPU.sei | .clv => CPU.clv | .cld => CPU.cld | .sed => CPU.sed
  | .rti => CPU.rti | .rts => CPU.rts | .jmp => CPU.jmp | .adc => CPU.adc
  | .sbc => CPU.sbc | .sta => CPU.sta | .stx => CPU.stx | .sty => CPU.sty
  | .inx => CPU.inx | .dex => CPU.dex | .iny => CPU.iny | .dey => CPU.dey
  | .inc => CPU.inc | .dec => CPU.dec | .txa => CPU.txa | .tya => CPU.tya
  | .txs => CPU.txs | .tay => CPU.tay | .tax => CPU.tax | .tsx => CPU.tsx
  | .lda => CPU.lda | .ldx => CPU.ldx | .ldy => CPU.ldy | .cpx => CPU.cpx
  | .cpy => CPU.cpy | .cmp => CPU.cmp | .bpl => CPU.bpl | .bmi => CPU.bmi
  | .bvc => CPU.bvc | .bvs => CPU.bvs | .bcc => CPU.bcc | .bcs => CPU.bcs
  | .bne => CPU.bne | .beq => CPU.beq | .jsr => CPU.jsr | .nop => CPU.nop

/-- The addressing-mode switch of `CPU::execute` (cpu.cpp:332-372). -/
def CPU.resolve_mode (s : CPU) : AddressMode → CPU
  | .ACCUMULATOR => s
  | .IMPLIED => s
  | .IMMEDIATE => s.resolve_immediate
  | .ABSOLUTE => s.resolve_absolute 0
  | .ZEROPAGE => s.resolve_zeropage 0
  | .ABSOLUTE_X => s.resolve_absolute s.x
  | .ABSOLUTE_Y => s.resolve_absolute s.y
  | .ZEROPAGE_X => s.resolve_zeropage s.x
  | .ZEROPAGE_Y => s.resolve_zeropage s.y
  | .INDIRECT => s.resolve_indirect
  | .X_INDIRECT => s.resolve_preindex_indirect
  | .INDIRECT_Y => s.resolve_postindex_indirect
  | .RELATIVE => s.resolve_relative
  | .NONE => s

/-- `CPU::execute` (cpu.cpp:329-381): record the addressing mode, resolve
the operand address, run the handler, add the page-cross bonus cycle only
when the decode entry's `check_page_cross` flag is set AND `page_crossed`
is pending (clearing the latter), then add the base cycles and accumulate
the total. -/
def CPU.execute (s : CPU) (instruction : Instruction) (fn : Mnemonic) : CPU :=
  let s := { s with addr_mode := instruction.addr_mode }
  let s := s.resolve_mode instruction.addr_mode
  let s := CPU.exec_fn fn s
  let s :=
    if instruction.check_page_cross && s.page_crossed then
      { s with curr_cycle := s.curr_cycle + 1, page_crossed := false }
    else s
  let s := { s with curr_cycle := s.curr_cycle + instruction.cycles }
  { s with total_cycles := s.total_cycles + s.curr_cycle }

/-- `CPU::step` (cpu.cpp:320-327): reset `curr_cycle`, fetch the opcode
byte at `pc` (incrementing `pc`), index `INSTRUCTIONS` with it, execute.
The per-instruction cycle count returned by the C++ function is
`curr_cycle` of the resulting state.  `none` models the two undefined
outcomes: an opcode whose table index is out of bounds (0xFF: the table
has 255 entries) and a table entry whose handler pointer is null. -/
def CPU.step (s : CPU) : Option CPU :=
  let s := { s with curr_cycle := 0 }
  let opcode := s.bus.read s.pc
  let s := { s with pc := (s.pc + 1) % 0x10000 }
  match INSTRUCTIONS.get? opcode with
  | none => none
  | some instruction =>
    match instruction.func with
    | none => none
    | some fn => some (s.execute instruction fn)

/-- The states the machine can be in after `reset()` followed by any
number of successful `step()` calls.  The base case starts from a freshly
constructed CPU on a freshly constructed bus, with arbitrary indeterminate
RAM contents and an arbitrary cartridge. -/
inductive CPU.Reachable : CPU → Prop where
  | reset (junk cart : Nat → Nat) :
      CPU.Reachable (CPU.reset (CPU.construct (CPUMemoryBus.construct junk cart)))
  | step (s s' : CPU) : CPU.Reachable s → CPU.step s = some s' → CPU.Reachable s'

/-! ## Status-bit bookkeeping lemmas

Bit positions in `p`: C=0, Z=1, I=2, D=3, B=4, U=5, V=6, N=7.  The
lemmas below track bit 5 (UNUSED) through every way the handlers touch
`p`. -/

theorem CPU.set_flag_p_bit5 (s : CPU) (flag v : Nat)
    (hf : flag.testBit 5 = false) :
    ((s.set_flag flag v).p).testBit 5 = s.p.testBit 5 := by
  unfold CPU.set_flag
  split
  · simp [Nat.testBit_or, hf]
  · simp [Nat.testBit_and, Nat.testBit_xor, hf,
      show Nat.testBit 0xFF 5 = true from by decide]

theorem CPU.set_flag_carry_p_bit5 (s : CPU) (v : Nat) :
    ((s.set_flag 0x01 v).p).testBit 5 = s.p.testBit 5 :=
  s.set_flag_p_bit5 0x01 v (by decide)

theorem CPU.set_flag_zero_p_bit5 (s : CPU) (v : Nat) :
    ((s.set_flag 0x02 v).p).testBit 5 = s.p.testBit 5 :=
  s.set_flag_p_bit5 0x02 v (by decide)

theorem CPU.set_flag_overflow_p_bit5 (s : CPU) (v : Nat) :
    ((s.set_flag 0x40 v).p).testBit 5 = s.p.testBit 5 :=
  s.set_flag_p_bit5 0x40 v (by decide)

theorem CPU.set_flag_negative_p_bit5 (s : CPU) (v : Nat) :
    ((s.set_flag 0x80 v).p).testBit 5 = s.p.testBit 5 :=
  s.set_flag_p_bit5 0x80 v (by decide)

theorem CPU.set_nz_flags_p_bit5 (s : CPU) (d : Nat) :
    ((s.set_nz_flags d).p).testBit 5 = s.p.testBit 5 := by
  unfold CPU.set_nz_flags
  rw [CPU.set_flag_negative_p_bit5, CPU.set_flag_zero_p_bit5]

theorem CPU.push_stack_p (s : CPU) (d : Nat) : (s.push_stack d).p = s.p := rfl

theorem CPU.pop_stack_p (s : CPU) : (s.pop_stack).1.p = s.p := rfl

theorem CPU.store_p (s : CPU) (d : Nat) : (s.store d).p = s.p := by
  unfold CPU.store
  split <;> rfl

theorem CPU.branch_p (s : CPU) (c : Bool) : (s.branch c).p = s.p := by
  unfold CPU.branch
  split <;> rfl

/-- Every handler leaves bit 5 of `p` set: the flag-toggling ones touch
only bits 0-4, 6 and 7, and `plp`/`rti` OR `UNUSED` into the popped
byte. -/
theorem CPU.exec_fn_p_bit5 (fn : Mnemonic) (s : CPU)
    (h : s.p.testBit 5 = true) :
    ((CPU.exec_fn fn s).p).testBit 5 = true := by
  cases fn <;>
    simp [CPU.exec_fn, CPU.brk, CPU.ora, CPU.and_, CPU.eor, CPU.asl,
      CPU.lsr, CPU.rol, CPU.ror, CPU.bit, CPU.php, CPU.plp, CPU.pha,
      CPU.pla, CPU.clc, CPU.sec, CPU.cli, CPU.sei, CPU.clv, CPU.cld,
      CPU.sed, CPU.rti, CPU.rts, CPU.jmp, CPU.adc, CPU.sbc, CPU.adc_,
      CPU.sta, CPU.stx, CPU.sty, CPU.inx, CPU.dex, CPU.iny, CPU.dey,
      CPU.inc, CPU.dec, CPU.txa, CPU.tya, CPU.txs, CPU.tay, CPU.tax,
      CPU.tsx, CPU.lda, CPU.ldx, CPU.ldy, CPU.cpx, CPU.cpy, CPU.cmp,
      CPU.bpl, CPU.bmi, CPU.bvc, CPU.bvs, CPU.bcc, CPU.bcs, CPU.bne,
      CPU.beq, CPU.jsr, CPU.nop, CPU.pop_stack,
      CPU.set_flag_carry_p_bit5, CPU.set_flag_zero_p_bit5,
      CPU.set_flag_overflow_p_bit5, CPU.set_flag_negative_p_bit5,
      CPU.set_nz_flags_p_bit5, CPU.push_stack_p, CPU.store_p,
      CPU.branch_p, Nat.testBit_or, Nat.testBit_and, Nat.testBit_xor,
      show Nat.testBit 0x20 5 = true from by decide,
      show Nat.testBit 0x04 5 = false from by decide,
      show Nat.testBit 0xFF 5 = true from by decide,
      show Nat.testBit 0x01 5 = false from by decide,
      show Nat.testBit 0x02 5 = false from by decide,
      show Nat.testBit 0x08 5 = false from by decide,
      show Nat.testBit 0x40 5 = false from by decide,
      show Nat.testBit 0xFE 5 = true from by decide,
      show Nat.testBit 0xFB 5 = true from by decide,
      show Nat.testBit 0xBF 5 = true from by decide,
      show Nat.testBit 0xF7 5 = true from by decide, h]

theorem CPU.resolve_mode_p (s : CPU) (m : AddressMode) :
    (s.resolve_mode m).p = s.p := by
  cases m <;>
    simp [CPU.resolve_mode, CPU.resolve_immediate, CPU.resolve_zeropage,
      CPU.resolve_absolute, CPU.resolve_indirect,
      CPU.resolve_preindex_indirect, CPU.resolve_postindex_indirect,
      CPU.resolve_relative]

theorem CPU.execute_p_eq (s : CPU) (instruction : Instruction)
    (fn : Mnemonic) :
    (s.execute instruction fn).p =
      (CPU.exec_fn fn
        (CPU.resolve_mode { s with addr_mode := instruction.addr_mode }
          instruction.addr_mode)).p := by
  unfold CPU.execute
  dsimp only
  split <;> rfl

/-- A successful `step` keeps bit 5 of `p` set. -/
theorem CPU.step_p_bit5 (s s' : CPU) (hs : CPU.step s = some s')
    (h : s.p.testBit 5 = true) : s'.p.testBit 5 = true := by
  unfold CPU.step at hs
  dsimp only at hs
  split at hs
  · exact absurd hs (by simp)
  · split at hs
    · exact absurd hs (by simp)
    · cases hs
      rw [CPU.execute_p_eq]
      exact CPU.exec_fn_p_bit5 _ _ (by rw [CPU.resolve_mode_p]; exact h)

/-! ## Concrete machines used by the claim theorems -/

set_option maxRecDepth 100000

/-- A cartridge whose reset vector (0xFFFC/0xFFFD) points at 0x0200, so
that test programs can live in internal RAM. -/
def cart_vector_0200 : Nat → Nat := fun a =>
  if a = 0xFFFC then 0x00 else if a = 0xFFFD then 0x02 else 0

/-- RAM for the C1 run: `BEQ +0x20` (F0 20) at 0x02F0. -/
def c1_ram : Nat → Nat := fun a =>
  if a = 0x2F0 then 0xF0 else if a = 0x2F1 then 0x20 else 0

/-- CPU about to execute the BEQ at 0x02F0 with Z set (p = 0x26): the
branch is taken and its target 0x0312 is on a different page than
0x02F2. -/
def c1_cpu : CPU :=
  { a := 0, x := 0, y := 0, p := 0x26, sp := 0xFD, pc := 0x02F0,
    addr_mode := .NONE, operand_addr := 0, curr_cycle := 0,
    total_cycles := 0, page_crossed := false,
    bus := CPUMemoryBus.construct c1_ram cart_vector_0200 }

/-- CPU about to fetch opcode byte 0xFF (stored at 0x0200). -/
def c2_cpu : CPU :=
  { a := 0, x := 0, y := 0, p := 0x24, sp := 0xFD, pc := 0x0200,
    addr_mode := .NONE, operand_addr := 0, curr_cycle := 0,
    total_cycles := 0, page_crossed := false,
    bus := CPUMemoryBus.construct (fun a => if a = 0x200 then 0xFF else 0)
      cart_vector_0200 }

/-- RAM for the C4 run: `PHP` (08) then `RTI` (40) at 0x0200. -/
def c4_ram : Nat → Nat := fun a =>
  if a = 0x200 then 0x08 else if a = 0x201 then 0x40 else 0

/-- The machine right after `reset()` on the C4 program. -/
def c4_cpu : CPU :=
  CPU.reset (CPU.construct (CPUMemoryBus.construct c4_ram cart_vector_0200))

/-- C1 — claim: a taken branch adds one cycle, and a second extra cycle
when the taken branch crosses a page.
The code never adds the second cycle: `CPU::branch` records
`page_crossed`, but every branch opcode's decode entry carries
`check_page_cross = false` (cpu.cpp:50,82,114,146,178,210,242,274), so
`execute` skips the bonus.  Witnessed here: the taken, page-crossing
`BEQ` of `c1_cpu` finishes with `curr_cycle = 3` (2 base + 1 taken), not
the 4 the claim requires — and the stale `page_crossed` flag stays set. -/
theorem c1_branch_page_cross_cycle_never_added :
    ((CPU.step c1_cpu).map fun t => (t.curr_cycle, t.pc)) = some (3, 0x0312) ∧
    ((CPU.step c1_cpu).map fun t => t.curr_cycle) ≠ some 4 ∧
    ((CPU.step c1_cpu).map fun t => t.page_crossed) = some true := by
  refine ⟨rfl, by decide, rfl⟩

/-- C2 — claim: the decode table has 256 entries and the lookup for
opcode 0xFF is a defined access.
The source declares `INSTRUCTIONS[0xFF]`, i.e. 255 entries (opcodes
0x00-0xFE); indexing it with 0xFF is out of bounds.  In the model the
lookup is `List.get?`, which returns `none` for 0xFF, and `step` on a
state whose opcode byte is 0xFF has no defined result. -/
theorem c2_decode_table_off_by_one :
    INSTRUCTIONS.length = 255 ∧
    INSTRUCTIONS.get? 0xFF = none ∧
    CPU.step c2_cpu = none := by
  refine ⟨rfl, rfl, rfl⟩

/-- A 16-byte iNES file with a valid header, zero PRG/CHR banks and
mapper number 1 (low nibble in flags6 bits 4-7). -/
def mapper1_file : List Nat :=
  [0x4E, 0x45, 0x53, 0x1A, 0, 0, 0x10, 0, 0, 0, 0, 0, 0, 0, 0, 0]

/-- C3 — claim: cartridge construction reports MalformedROM /
InvalidMagic / UnsupportedMapper errors to the caller.
The constructor detects exactly those conditions, but on an undersized
file, a bad magic or a size mismatch it merely prints to stdout and
returns normally — the caller receives a "constructed" cartridge and no
error value or exception; on a nonzero mapper number it executes a bare
`throw;` with no active exception, which calls `std::terminate`.
Evaluated at the failing inputs: a 10-byte file, a file with a corrupt
magic tag, and a mapper-1 file. -/
theorem c3_cartridge_errors_not_reported_to_caller :
    Cartridge.construct (List.replicate 10 0) =
      CartridgeOutcome.malformed_logged_and_returned ∧
    Cartridge.construct
        [0x4E, 0x45, 0x53, 0x00, 0, 0, 0, 0, 0, 0, 0, 0, 0, 0, 0, 0] =
      CartridgeOutcome.bad_magic_logged_and_returned ∧
    Cartridge.construct mapper1_file = CartridgeOutcome.terminated_on_mapper := by
  refine ⟨by decide, by decide, by decide⟩

/-- C4 — claim: bit 4 (B) of the live P is 0 after every instruction,
including after RTI pops a stacked status byte with B set.
`CPU::rti` does `p = pop_stack() | Flag::UNUSED` without clearing B
(unlike `plp`, which masks it off).  Witnessed on a reachable run: after
reset (P = 0x24), `PHP` pushes 0x34 (B asserted in the pushed copy), and
`RTI` pops it back — the live P ends as 0x34 with bit 4 set. -/
theorem c4_rti_leaves_break_set_in_live_p :
    (((CPU.step c4_cpu).bind CPU.step).map fun t => (t.p, t.p.testBit 4)) =
      some (0x34, true) := by
  rfl

/-- C6 — claim: a freshly constructed CPUMemoryBus reads 0 everywhere in
0x0000-0x1FFF before any write.
The constructor (bus.cpp:4-7) initializes only the `cartridge` member:
the `std::array<uint8_t, 2048> ram` is default-initialized and its bytes
are indeterminate.  A fresh bus whose indeterminate bytes happen to be
0xAB returns 0xAB, not 0, at address 0x0000. -/
theorem c6_fresh_bus_ram_not_zeroed :
    (CPUMemoryBus.construct (fun _ => 0xAB) (fun _ => 0)).read 0x0000 = 0xAB ∧
    (CPUMemoryBus.construct (fun _ => 0xAB) (fun _ => 0)).read 0x0000 ≠ 0 := by
  refine ⟨rfl, by decide⟩

theorem and_3FFF_eq_mod (x : Nat) : x &&& 0x3FFF = x % 0x4000 := by
  have h := Nat.and_pow_two_sub_one_eq_mod x 14
  norm_num at h
  exact h

/-- A 32 KiB PRG image whose first 16 KiB bank is all 0x11 and whose
second bank is all 0x22. -/
def prg_32k : List Nat := List.replicate 0x4000 0x11 ++ List.replicate 0x4000 0x22

/-- C5 (counterexample): for a 32 KiB PRG ROM whose banks differ,
`Mapper0::read(0xC000)` returns the FIRST bank's byte (0x11), identical
to the read at 0x8000 — `prg_rom[addr & 0x3FFF]` masks the index to
14 bits, so the second 16 KiB bank (whose byte at offset 0 is 0x22) is
never returned, contrary to the claim. -/
theorem c5_second_bank_never_read :
    Mapper0.read ⟨prg_32k, []⟩ 0xC000 = 0x11 ∧
    Mapper0.read ⟨prg_32k, []⟩ 0xC000 = Mapper0.read ⟨prg_32k, []⟩ 0x8000 ∧
    prg_32k.getD 0x4000 0 = 0x22 := by
  refine ⟨rfl, rfl, ?_⟩
  have hlen : (List.replicate 0x4000 (0x11 : Nat)).length = 0x4000 :=
    List.length_replicate 0x4000 0x11
  unfold prg_32k
  rw [List.getD_eq_getElem?_getD, List.getElem?_append_right (by rw [hlen]),
    hlen, List.getElem?_replicate_of_lt (by norm_num)]
  rfl

/-- C5 (amended): for every address in 0x8000-0xFFFF, `Mapper0::read`
returns `prg_rom[addr & 0x3FFF]`; the index is masked to 14 bits, below
0x4000, so only the first 16 KiB is ever addressed, and for any PRG
image the reads at 0xC000-0xFFFF mirror the reads at 0x8000-0xBFFF
(the second 16 KiB bank of a 32 KiB cartridge is never indexed). -/
theorem c5_prg_read_masks_to_first_bank :
    (∀ (m : Mapper0) (address : Nat), 0x8000 ≤ address → address ≤ 0xFFFF →
      m.read address = m.prg_rom.getD (address &&& 0x3FFF) 0) ∧
    (∀ address : Nat, address &&& 0x3FFF < 0x4000) ∧
    (∀ (m : Mapper0) (address : Nat), 0x8000 ≤ address → address ≤ 0xBFFF →
      m.read (address + 0x4000) = m.read address) := by
  refine ⟨?_, ?_, ?_⟩
  · intro m a h1 h2
    unfold Mapper0.read
    dsimp only
    rw [Nat.mod_eq_of_lt (by omega : a < 0x10000)]
    split
    · rfl
    · next hcond => exact absurd ⟨h1, h2⟩ hcond
  · intro a
    rw [and_3FFF_eq_mod]
    exact Nat.mod_lt _ (by decide)
  · intro m a h1 h2
    have hidx : (a + 0x4000) % 0x4000 = a % 0x4000 := by omega
    unfold Mapper0.read
    dsimp only
    rw [Nat.mod_eq_of_lt (by omega : a + 0x4000 < 0x10000),
      Nat.mod_eq_of_lt (by omega : a < 0x10000)]
    split
    · split
      · rw [and_3FFF_eq_mod, and_3FFF_eq_mod, hidx]
      · next hcond => exact absurd ⟨h1, by omega⟩ hcond
    · next hcond => exact absurd ⟨by omega, by omega⟩ hcond

theorem c5_prg_read_masks_to_first_bank_witness :
    Mapper0.read ⟨[1, 2, 3], []⟩ 0x8001 = [1, 2, 3].getD (0x8001 &&& 0x3FFF) 0 ∧
    0x8001 &&& 0x3FFF < 0x4000 ∧
    Mapper0.read ⟨[1, 2, 3], []⟩ (0x8001 + 0x4000) =
      Mapper0.read ⟨[1, 2, 3], []⟩ 0x8001 :=
  ⟨c5_prg_read_masks_to_first_bank.1 ⟨[1, 2, 3], []⟩ 0x8001 (by decide) (by decide),
   c5_prg_read_masks_to_first_bank.2.1 0x8001,
   c5_prg_read_masks_to_first_bank.2.2 ⟨[1, 2, 3], []⟩ 0x8001 (by decide) (by decide)⟩

/-- RAM for the C7 run: `JMP ($10FF)` (6C FF 10) at 0x0200; the pointer
bytes live in RAM — bus address 0x10FF is RAM cell 0x0FF (= 0x40), bus
address 0x1000 is RAM cell 0x000 (= 0x80), and the decoy byte that a
non-buggy fetch would read at bus address 0x1100 is RAM cell 0x100
(= 0xFF). -/
def c7_ram : Nat → Nat := fun a =>
  if a = 0x200 then 0x6C else if a = 0x201 then 0xFF
  else if a = 0x202 then 0x10 else if a = 0x0FF then 0x40
  else if a = 0x000 then 0x80 else if a = 0x100 then 0xFF else 0

def c7_cpu : CPU :=
  { a := 0, x := 0, y := 0, p := 0x24, sp := 0xFD, pc := 0x0200,
    addr_mode := .NONE, operand_addr := 0, curr_cycle := 0,
    total_cycles := 0, page_crossed := false,
    bus := CPUMemoryBus.construct c7_ram cart_vector_0200 }

/-- The machine of the claim's own instance: `JMP ($30FF)` (6C FF 30) at
0x0200, after attempting to set memory 0x30FF := 0x40 and 0x3000 := 0x80
through the bus — both addresses are in the PPU-register stub window. -/
def c7_claim_cpu : CPU :=
  { a := 0, x := 0, y := 0, p := 0x24, sp := 0xFD, pc := 0x0200,
    addr_mode := .NONE, operand_addr := 0, curr_cycle := 0,
    total_cycles := 0, page_crossed := false,
    bus := ((CPUMemoryBus.construct
        (fun a => if a = 0x200 then 0x6C else if a = 0x201 then 0xFF
                  else if a = 0x202 then 0x30 else 0)
        cart_vector_0200).write 0x30FF 0x40).write 0x3000 0x80 }

/-- C7 (counterexample): the claim's concrete instance cannot hold on
this machine — 0x30FF and 0x3000 lie in the PPU-register stub window
(0x2000-0x3FFF), where `CPUMemoryBus::write` discards data and
`CPUMemoryBus::read` returns 0.  After "setting" that memory through the
bus, `JMP ($30FF)` loads PC = 0x0000, not 0x8040. -/
theorem c7_jmp_30ff_hits_ppu_stub :
    ((CPU.step c7_claim_cpu).map fun t => t.pc) = some 0x0000 ∧
    ((CPU.step c7_claim_cpu).map fun t => t.pc) ≠ some 0x8040 ∧
    c7_claim_cpu.bus.read 0x30FF = 0 ∧ c7_claim_cpu.bus.read 0x3000 = 0 := by
  refine ⟨rfl, by decide, rfl, rfl⟩

/-- C7 (amended): every 16-bit pointer fetch of the INDIRECT, X_INDIRECT
and INDIRECT_Y resolutions goes through `read_wrapped_page`, and when
the pointer's low byte sits at an address of the form xxFF the high byte
is fetched from xx00 of the same page; in particular, with RAM set so
that the bus reads 0x40 at 0x10FF and 0x80 at 0x1000, `JMP ($10FF)` sets
PC to 0x8040.  (The claim's own instance at 0x30FF is unobservable: that
window is the PPU stub — see the counterexample.) -/
theorem c7_pointer_fetch_wraps_page :
    (∀ (s : CPU) (hi : Nat), hi < 0x100 →
      s.read_wrapped_page (hi * 0x100 + 0xFF) =
        s.bus.read (hi * 0x100 + 0xFF) ||| s.bus.read (hi * 0x100) <<< 8) ∧
    (∀ s : CPU, s.resolve_indirect =
      { s with pc := (s.pc + 2) % 0x10000,
               operand_addr := s.read_wrapped_page
                 (s.bus.read s.pc ||| s.bus.read ((s.pc + 1) % 0x10000) <<< 8) }) ∧
    (∀ s : CPU, s.resolve_preindex_indirect =
      { s with pc := (s.pc + 1) % 0x10000,
               operand_addr := s.read_wrapped_page
                 ((s.bus.read s.pc + s.x) &&& 0xFF) }) ∧
    (∀ s : CPU, s.resolve_postindex_indirect =
      { s with pc := (s.pc + 1) % 0x10000,
               operand_addr :=
                 (s.read_wrapped_page (s.bus.read s.pc) + s.y) &&& 0xFFFF,
               page_crossed := is_page_crossed
                 (s.read_wrapped_page (s.bus.read s.pc))
                 ((s.read_wrapped_page (s.bus.read s.pc) + s.y) &&& 0xFFFF) }) ∧
    ((CPU.step c7_cpu).map fun t => t.pc) = some 0x8040 := by
  refine ⟨?_, fun s => rfl, fun s => rfl, fun s => rfl, rfl⟩
  intro s hi h
  have key : (hi * 0x100 + 0xFF) &&& 0xFF00 = hi * 0x100 ∧
      ((hi * 0x100 + 0xFF + 1) % 0x10000) &&& 0xFF00 ≠ hi * 0x100 := by
    revert h
    revert hi
    decide
  unfold CPU.read_wrapped_page is_page_crossed
  dsimp only
  rw [Nat.mod_eq_of_lt (by omega : hi * 0x100 + 0xFF < 0x10000)]
  rw [key.1]
  simp only [bne_iff_ne]
  rw [if_pos (Ne.symm key.2)]

theorem c7_pointer_fetch_wraps_page_witness :
    c7_cpu.read_wrapped_page (0x10 * 0x100 + 0xFF) =
      c7_cpu.bus.read (0x10 * 0x100 + 0xFF) |||
        c7_cpu.bus.read (0x10 * 0x100) <<< 8 :=
  c7_pointer_fetch_wraps_page.1 c7_cpu 0x10 (by decide)

/-- C8 — claim: in every CPU state reachable after `reset()` by any
sequence of `step()` calls, bit 5 (U) of the processor status reads
as 1.  `reset` sets P = 0x24 (bit 5 set); no handler clears bit 5: the
flag writes go through masks touching only bits 0-4, 6 and 7, and
`plp`/`rti` OR `UNUSED` into the popped byte. -/
theorem c8_unused_bit_reads_one (s : CPU) (h : CPU.Reachable s) :
    s.p.testBit 5 = true := by
  induction h with
  | reset junk cart =>
    show Nat.testBit (0x04 ||| 0x20) 5 = true
    decide
  | step s s' _ hstep ih => exact CPU.step_p_bit5 s s' hstep ih

theorem c8_unused_bit_reads_one_witness :
    ((CPU.reset (CPU.construct
      (CPUMemoryBus.construct (fun _ => 0) (fun _ => 0)))).p).testBit 5 = true :=
  c8_unused_bit_reads_one _ (CPU.Reachable.reset _ _)

/-- Operand source for the C9 witness: an SBC state whose operand byte
is 0x05. -/
def c9_sbc_cpu : CPU :=
  { a := 0x30, x := 0, y := 0, p := 0x25, sp := 0, pc := 0,
    addr_mode := .IMMEDIATE, operand_addr := 0x10, curr_cycle := 0,
    total_cycles := 0, page_crossed := false,
    bus := CPUMemoryBus.construct (fun _ => 0x05) (fun _ => 0) }

/-- Operand source for the C9 witness: an ADC state, identical registers,
whose operand byte is 0x05 XOR 0xFF = 0xFA. -/
def c9_adc_cpu : CPU :=
  { a := 0x30, x := 0, y := 0, p := 0x25, sp := 0, pc := 0,
    addr_mode := .IMMEDIATE, operand_addr := 0x10, curr_cycle := 0,
    total_cycles := 0, page_crossed := false,
    bus := CPUMemoryBus.construct (fun _ => 0xFA) (fun _ => 0) }


theorem CPU.set_flag_a (s : CPU) (flag v : Nat) :
    (s.set_flag flag v).a = s.a := by
  unfold CPU.set_flag
  split <;> rfl

theorem CPU.set_flag_p (s : CPU) (flag v : Nat) :
    (s.set_flag flag v).p =
      if v ≠ 0 then s.p ||| flag else s.p &&& (0xFF ^^^ flag) := by
  unfold CPU.set_flag
  split <;> simp_all

/-- `CPU::adc_` reads only A, P and its operand, and its A and P outputs
agree across any two states that agree on A and P. -/
theorem CPU.adc_only_reads_a_p (s t : CPU) (op : Nat)
    (ha : s.a = t.a) (hp : s.p = t.p) :
    (s.adc_ op).a = (t.adc_ op).a ∧ (s.adc_ op).p = (t.adc_ op).p := by
  unfold CPU.adc_
  dsimp only
  simp only [CPU.set_nz_flags, CPU.set_flag_p, CPU.set_flag_a]
  rw [ha, hp]
  exact ⟨rfl, rfl⟩

/-- C9 — claim: from the same A and P, executing SBC with operand x
produces the same accumulator and the same C, Z, V, N flag outcomes as
executing ADC with operand x XOR 0xFF.  In the source `CPU::sbc` is
literally `adc_(get_operand() ^ 0xFF)` and `CPU::adc` is
`adc_(get_operand())`, and `adc_` reads only A, P and the operand while
writing only A and P. -/
theorem c9_sbc_equals_adc_complement (s t : CPU) (x : Nat)
    (ha : s.a = t.a) (hp : s.p = t.p)
    (hs : s.get_operand = x) (ht : t.get_operand = x ^^^ 0xFF) :
    (CPU.sbc s).a = (CPU.adc t).a ∧ (CPU.sbc s).p = (CPU.adc t).p := by
  unfold CPU.sbc CPU.adc
  rw [hs, ht]
  exact CPU.adc_only_reads_a_p s t (x ^^^ 0xFF) ha hp

theorem c9_sbc_equals_adc_complement_witness :
    (CPU.sbc c9_sbc_cpu).a = (CPU.adc c9_adc_cpu).a ∧
    (CPU.sbc c9_sbc_cpu).p = (CPU.adc c9_adc_cpu).p :=
  c9_sbc_equals_adc_complement c9_sbc_cpu c9_adc_cpu 0x05 rfl rfl rfl
    (by decide)

/-- A CPU with SP = 0x00, used to witness the push wrap-around. -/
def c10_cpu : CPU :=
  { a := 0, x := 0, y := 0, p := 0x24, sp := 0x00, pc := 0,
    addr_mode := .NONE, operand_addr := 0, curr_cycle := 0,
    total_cycles := 0, page_crossed := false,
    bus := CPUMemoryBus.construct (fun _ => 0) (fun _ => 0) }

/-- C10 — claim: for every byte value of SP, `push_stack` writes to an
address in 0x0100-0x01FF and `pop_stack` reads from an address in
0x0100-0x01FF, SP wrapping modulo 256 (a push at SP = 0x00 leaves
SP = 0xFF, a pop at SP = 0xFF leaves SP = 0x00); stack accesses never
touch memory outside page 1. -/
theorem c10_stack_confined_to_page_one (s : CPU) (d : Nat)
    (h : s.sp < 0x100) :
    (s.push_stack d =
      { s with bus := s.bus.write (STACK_BASE_ADDRESS ||| s.sp) d,
               sp := (s.sp + 0xFF) % 0x100 } ∧
     0x0100 ≤ STACK_BASE_ADDRESS ||| s.sp ∧
     STACK_BASE_ADDRESS ||| s.sp ≤ 0x01FF) ∧
    (s.pop_stack =
      ({ s with sp := (s.sp + 1) % 0x100 },
        s.bus.read (STACK_BASE_ADDRESS ||| (s.sp + 1) % 0x100)) ∧
     0x0100 ≤ STACK_BASE_ADDRESS ||| (s.sp + 1) % 0x100 ∧
     STACK_BASE_ADDRESS ||| (s.sp + 1) % 0x100 ≤ 0x01FF) ∧
    (s.sp = 0x00 → (s.push_stack d).sp = 0xFF) ∧
    (s.sp = 0xFF → (s.pop_stack).1.sp = 0x00) := by
  have key : ∀ v, v < 0x100 → 0x0100 ≤ 0x0100 ||| v ∧ 0x0100 ||| v ≤ 0x01FF := by
    decide
  refine ⟨⟨rfl, key s.sp h⟩,
    ⟨rfl, key _ (Nat.mod_lt _ (by decide))⟩, ?_, ?_⟩
  · intro h0
    simp [CPU.push_stack, h0]
  · intro hF
    simp [CPU.pop_stack, hF]

theorem c10_stack_confined_to_page_one_witness :
    (c10_cpu.push_stack 0x42).sp = 0xFF ∧
    0x0100 ≤ STACK_BASE_ADDRESS ||| c10_cpu.sp ∧
    STACK_BASE_ADDRESS ||| c10_cpu.sp ≤ 0x01FF :=
  ⟨(c10_stack_confined_to_page_one c10_cpu 0x42 (by decide)).2.2.1 rfl,
   (c10_stack_confined_to_page_one c10_cpu 0x42 (by decide)).1.2⟩
